import Mathlib

/-!
Verification of the memorai conversational-memory engine against its
specification.  The Python source is shallowly embedded: float scores are
modelled as rationals, timestamps and turn numbers as integers, SQL tables as
lists of rows, and each service function as a pure Lean function mirroring the
source control flow.  Two float-valued transcendental helpers of the source
(`math.log(1 + n)` in the retriever and `math.exp` in the weight calculator)
are taken as parameters of the model; every stated property holds for every
choice of these functions.
-/

namespace Memorai

/-- Prefix test on character lists (Python `str.startswith`, used to build the
substring test below). -/
def leadsWith : List Char → List Char → Bool
  | [], _ => true
  | _ :: _, [] => false
  | a :: as, b :: bs => a == b && leadsWith as bs

/-- Occurrence of `needle` inside `hay` (Python `needle in hay` on strings). -/
def occursIn (needle : List Char) : List Char → Bool
  | [] => needle.isEmpty
  | c :: cs => leadsWith needle (c :: cs) || occursIn needle cs

/-- Python `needle in hay` for strings. -/
def strContains (hay needle : String) : Bool :=
  occursIn needle.data hay.data

/-- Python `str.lower()` (character-wise lowering over the string's data). -/
def toLowerStr (s : String) : String := String.mk (s.data.map Char.toLower)

/-- Memory types (`app/models/memory.py`, class MemoryType). -/
inductive MemoryType
  | preference
  | fact
  | commitment
  | instruction
  | entity
deriving DecidableEq

/-- A row of the `memories` table (persisted layout in `storage.py` plus the
columns added by the two migrations).  `context` is the jsonb map, modelled as
an association list.  `content_hash` is the column added by
`migrations/add_content_hash_constraint.py`; it is nullable. -/
structure MemRow where
  memory_id : ℕ
  user_id : String
  type : MemoryType
  content : String
  embedding : Option (List ℚ) := none
  content_hash : Option String := none
  source_turn : ℤ := 0
  created_at : ℤ := 0
  last_accessed : ℤ := 0
  access_count : ℕ := 0
  confidence : ℚ := 7/10
  decay_score : ℚ := 1
  importance_level : String := "medium"
  context : List (String × String) := []
deriving DecidableEq

/-- Input schema for creating a memory (`MemoryCreate` in
`app/models/memory.py`; tags/entities omitted, they play no role in the
claims). -/
structure MemoryCreateM where
  user_id : String
  type : MemoryType
  content : String
  source_turn : ℤ
  confidence : ℚ
  context : List (String × String) := []
deriving DecidableEq

/-- Database-level errors surfaced by the row store. -/
inductive DBError
  | uniqueViolation
deriving DecidableEq

/-- PostgreSQL semantics of the unique index
`idx_memories_user_content_hash ON memories(user_id, content_hash)`:
two rows conflict only when the user ids agree and BOTH hashes are non-NULL
and equal (NULLs are distinct for unique indexes). -/
def hashConflict (existing incoming : MemRow) : Bool :=
  existing.user_id == incoming.user_id &&
    match existing.content_hash, incoming.content_hash with
    | some h, some h' => h == h'
    | _, _ => false

/-- INSERT into `memories` under the unique index of the migration. -/
def insertRow (store : List MemRow) (r : MemRow) : Except DBError (List MemRow) :=
  if store.any (fun s => hashConflict s r) then
    .error .uniqueViolation
  else
    .ok (store ++ [r])

/-- The row built by `MemoryStorage.create_memory` (`storage.py` lines
108-158).  The INSERT statement lists the columns (memory_id, user_id, type,
content, embedding, source_turn, created_at, confidence, tags, entities) —
`content_hash` is NOT among them, so the new row carries the column default
NULL. -/
def row_of_create (embed : String → List ℚ) (freshId : ℕ) (now : ℤ)
    (mc : MemoryCreateM) : MemRow :=
  { memory_id := freshId
    user_id := mc.user_id
    type := mc.type
    content := mc.content
    embedding := some (embed mc.content)
    content_hash := none
    source_turn := mc.source_turn
    created_at := now
    last_accessed := now
    access_count := 0
    confidence := mc.confidence
    decay_score := 1
    importance_level := "medium"
    context := mc.context }

/-- Model of `MemoryStorage.create_memory`: embed the content and INSERT the row
(`storage.py` lines 96-187).  No content hash is computed anywhere in the
function and no duplicate check is performed before the INSERT. -/
def create_memory (embed : String → List ℚ) (freshId : ℕ) (now : ℤ)
    (store : List MemRow) (mc : MemoryCreateM) : Except DBError (List MemRow) :=
  insertRow store (row_of_create embed freshId now mc)

/-- A fixed embedder used by concrete evaluations. -/
def embedConst : String → List ℚ := fun _ => [1]

/-- The duplicate submission of end-to-end scenario C of the spec:
the extractor candidate produced at both turn 5 and turn 7. -/
def dupCreate : MemoryCreateM :=
  { user_id := "u"
    type := .fact
    content := "User lives in Bangalore."
    source_turn := 5
    confidence := 9/10 }

/-- The row stored by the first create of `dupCreate`. -/
def dupRow1 : MemRow := row_of_create embedConst 1 100 dupCreate

/-- The row stored by the second create of `dupCreate`. -/
def dupRow2 : MemRow := row_of_create embedConst 2 101 dupCreate

/-! Lifecycle worker: TTL expiry (`app/utils/memory_lifecycle.py`) and
old-memory cleanup (`app/services/memory_manager.py`). -/

/-- TTL in days for entity memories (`MEMORY_TTL_POLICY[MemoryType.ENTITY]`);
the other four types map to None, i.e. no TTL. -/
def entityTTLDays : ℤ := 180

/-- Selection predicate of the DELETE issued by `expire_old_memories`
(`memory_lifecycle.py` lines 50-80): `type = 'entity' AND created_at <
:expiry_date` with `expiry_date = now - 180 days`, plus the optional user
filter.  No other column — in particular not `importance_level` — appears in
the WHERE clause. -/
def expireSelects (now : ℤ) (userFilter : Option String) (r : MemRow) : Bool :=
  r.type == .entity && r.created_at < now - entityTTLDays &&
    match userFilter with
    | none => true
    | some u => r.user_id == u

/-- Model of `expire_old_memories` (non-dry-run branch): delete the selected rows and
report how many went. -/
def expire_old_memories (now : ℤ) (userFilter : Option String)
    (store : List MemRow) : List MemRow × ℕ :=
  (store.filter (fun r => !expireSelects now userFilter r),
   (store.filter (expireSelects now userFilter)).length)

/-- Per-memory deletion test of `MemoryManager.cleanup_old_memories`
(`memory_manager.py` lines 264-279): delete when (older than the cutoff AND
decay below `min_decay_score`) OR (never accessed AND confidence below the
configured threshold).  Again `importance_level` is not consulted.  Defaults:
`max_age_days = settings.memory_decay_days = 90`, `min_decay_score = 0.1`,
`settings.memory_confidence_threshold = 0.7`. -/
def cleanupShouldDelete (now maxAgeDays : ℤ) (minDecay confThreshold : ℚ)
    (r : MemRow) : Bool :=
  (r.created_at < now - maxAgeDays && r.decay_score < minDecay) ||
    (r.access_count == 0 && r.confidence < confThreshold)

/-- Replace a row's importance level, leaving every other column alone. -/
def withImportance (r : MemRow) (lvl : String) : MemRow :=
  { r with importance_level := lvl }

/-- Importance levels of `app/utils/memory_weight.py`. -/
inductive ImportanceLevel
  | critical
  | high
  | medium
  | low
deriving DecidableEq

/-- Daily decay rates (`MemoryWeightCalculator.DECAY_RATES`). -/
def decayRate : ImportanceLevel → ℚ
  | .critical => 0
  | .high => 1/1000
  | .medium => 5/1000
  | .low => 2/100

/-- Python `round(x, 3)`: nearest multiple of 1/1000. -/
def roundTo3 (x : ℚ) : ℚ := (round (x * 1000) : ℤ) / 1000

/-- Model of `MemoryWeightCalculator.calculate_current_weight` (`memory_weight.py`
lines 117-163).  `expF` stands for the float `math.exp`; `daysSinceAccess =
none` models `last_accessed = None`.  The critical branch returns the initial
weight before any decay computation. -/
def calculate_current_weight (expF : ℚ → ℚ) (initialWeight : ℚ)
    (lvl : ImportanceLevel) (daysOld : ℤ) (accessCount : ℕ)
    (daysSinceAccess : Option ℤ) : ℚ :=
  if lvl = .critical then
    initialWeight
  else
    let timeDecay := expF (-(decayRate lvl * daysOld))
    let decayedWeight := initialWeight * timeDecay
    let accessBoost := min ((accessCount : ℚ) * 5/100) (3/10)
    let recencyBoost : ℚ :=
      match daysSinceAccess with
      | none => 0
      | some d => if d < 7 then 1/10 * (1 - (d : ℚ) / 7) else 0
    roundTo3 (min (decayedWeight + accessBoost + recencyBoost) 1)

/-- A critical entity memory created at day 0 (for concrete evaluation). -/
def critRow : MemRow :=
  { memory_id := 7
    user_id := "u"
    type := .entity
    content := "Acme Corp is the employer of the user"
    created_at := 0
    importance_level := "critical"
    confidence := 95/100
    access_count := 3 }

/-! Canonicalizer (`app/services/canonicalizer.py`). -/

/-- The table `CanonicalMemoryResolver.CANONICAL_KEYS`, in Python dict insertion
order. -/
def canonicalKeys : List (String × List String) :=
  [ ("call_time", ["call", "phone", "meeting time"]),
    ("contact_preference", ["contact", "reach", "communicate"]),
    ("response_style", ["response", "answer", "reply style"]),
    ("language", ["language", "speak", "communicate in"]),
    ("meeting_time", ["meeting", "schedule", "appointment time"]),
    ("timezone", ["timezone", "time zone"]),
    ("availability", ["available", "free", "open"]),
    ("diet", ["diet", "eat", "food"]),
    ("favorite_food", ["favorite food", "likes to eat"]),
    ("allergies", ["allergic", "allergy", "cannot eat"]),
    ("work_hours", ["work hours", "working time"]),
    ("notification_preference", ["notification", "alert", "reminder"]),
    ("formality", ["formal", "casual", "tone"]),
    ("brevity", ["brief", "detailed", "length"]) ]

/-- Model of `_detect_canonical_key`: first key (in table order) one of whose patterns
occurs in the lowercased content. -/
def detect_canonical_key (content : String) : Option String :=
  let cl := toLowerStr content
  (canonicalKeys.find? (fun kp => kp.2.any (fun p => strContains cl p))).map (·.1)

/-- Lookup `CANONICAL_KEYS.get(canonical_key, [])`. -/
def keyPatterns (key : String) : List String :=
  ((canonicalKeys.find? (fun kp => kp.1 == key)).map (·.2)).getD []

/-- Content-level membership in a canonical key: one of the key's patterns
occurs in the memory's content, case-insensitively.  This is the sense in
which a stored memory "matches the key" (the ILIKE tests the source WRITES
for each pattern, pooled over the key; the queries themselves never run, see
`find_canonical_memory`). -/
def contentMatchesKey (key : String) (r : MemRow) : Bool :=
  (keyPatterns key).any
    (fun p => strContains (toLowerStr r.content) (toLowerStr p))

/-- Errors that escape the storage loop of the detached extraction task. -/
inductive TaskErr
  | unmappedModel
  | db (e : DBError)
deriving DecidableEq

/-- Model of `_find_canonical_memory` (`canonicalizer.py` lines 151-186).
The source iterates the key's patterns and, for each, builds
`select(Memory).where(Memory.user_id == ...).where(Memory.content.ilike
(...)).order_by(Memory.created_at.desc()).limit(1)`.  But `Memory` here is
the pydantic `BaseModel` of `app/models/memory.py` — the repository contains
no SQLAlchemy-mapped class (no declarative base, no `__tablename__`; every
other database access goes through `text()` SQL) — so statement construction
raises on the FIRST pattern iteration, before any query executes.  With an
empty pattern list the loop body never runs and the function returns None;
the table's keys all carry patterns, so in practice every call raises.
The row store is never consulted, hence no store parameter. -/
def find_canonical_memory (user key : String) (mtype : MemoryType) :
    Except TaskErr (Option MemRow) :=
  if (keyPatterns key).isEmpty then .ok none else .error .unmappedModel

/-- Model of `CanonicalMemoryResolver.resolve_preference` (`canonicalizer.py`
lines 74-131).  Non-canonical types and contents without a canonical key
return `(False, None)`; a detected key leads into `_find_canonical_memory`,
whose exception propagates — the canonicalizer has no try/except.  (The
in-place update of `_update_canonical_memory` is unreachable, and its own
`update(Memory)` over the unmapped class would raise just the same; the
store is therefore returned exactly as given on every non-raising path.) -/
def resolve_preference (store : List MemRow) (user : String)
    (newContent : String) (mtype : MemoryType) (conf : ℚ) (turn now : ℤ) :
    Except TaskErr (List MemRow × Bool × Option ℕ) :=
  if !(mtype == .preference || mtype == .instruction) then
    .ok (store, false, none)
  else
    match detect_canonical_key newContent with
    | none => .ok (store, false, none)
    | some key =>
      match find_canonical_memory user key mtype with
      | .error e => .error e
      | .ok none => .ok (store, false, none)
      | .ok (some _) => .error .unmappedModel

/-! Deduplicator (`_check_duplicate_content` in `app/api/routes.py`). -/

/-- Comparator for `ORDER BY created_at DESC` (row `a` comes before `b` when
its timestamp is at least as large). -/
def byCreatedDesc (a b : MemRow) : Bool := b.created_at ≤ a.created_at

/-- Model of `MemoryStorage.get_user_memories` (`storage.py` lines 370-439):
`SELECT ... WHERE user_id = :user_id ORDER BY created_at DESC LIMIT :limit`. -/
def get_user_memories (store : List MemRow) (user : String) (limit : ℕ) :
    List MemRow :=
  (((store.filter (fun r => r.user_id == user)).mergeSort byCreatedDesc).take
    limit)

/-- Model of `_check_duplicate_content` (`routes.py` lines 147-194).  `sim` stands for
the numpy cosine-similarity computation on float vectors; `errored = true`
models any exception inside the check, whose handler returns False (create is
allowed, fail-open).  The loop skips rows whose `embedding` is falsy (None or
the empty list) and reports a duplicate on the first row with similarity at
least the threshold. -/
def check_duplicate_content (sim : List ℚ → List ℚ → ℚ) (store : List MemRow)
    (user : String) (newEmbedding : List ℚ) (threshold : ℚ)
    (errored : Bool) : Bool :=
  if errored then
    false
  else
    (get_user_memories store user 50).any (fun m =>
      match m.embedding with
      | none => false
      | some emb => !emb.isEmpty && decide (threshold ≤ sim newEmbedding emb))

/-- One iteration of the storage loop of
`_extract_and_store_memories_independent` (`routes.py` lines 240-271):
canonical resolution first (a canonical update would skip the insert), then
the near-duplicate check with threshold 0.95 (a duplicate skips the insert),
and only then `create_memory`.  The loop body has no per-candidate handler:
an exception from the canonicalizer or from `create_memory` (which
re-raises) propagates as an error of the whole step. -/
def extraction_store_step (sim : List ℚ → List ℚ → ℚ)
    (embed : String → List ℚ) (dedupErrored : Bool) (freshId : ℕ) (now : ℤ)
    (store : List MemRow) (user : String) (turn : ℤ) (cand : MemoryCreateM) :
    Except TaskErr (List MemRow) :=
  match resolve_preference store user cand.content cand.type
      cand.confidence turn now with
  | .error e => .error e
  | .ok res =>
    if res.2.1 then
      .ok res.1
    else if check_duplicate_content sim store user (embed cand.content)
        (95/100) dedupErrored then
      .ok store
    else
      match create_memory embed freshId now store cand with
      | .ok st => .ok st
      | .error e => .error (.db e)

/-- The surrounding detached task (`routes.py` lines 198-309): its single
outer handler catches any exception from the storage loop, logs, and ends
the task.  The session closes without reaching the final `commit` (line
305), so an aborted task leaves the row store exactly as it was. -/
def run_extraction_step (sim : List ℚ → List ℚ → ℚ)
    (embed : String → List ℚ) (dedupErrored : Bool) (freshId : ℕ) (now : ℤ)
    (store : List MemRow) (user : String) (turn : ℤ) (cand : MemoryCreateM) :
    List MemRow :=
  match extraction_store_step sim embed dedupErrored freshId now store user
      turn cand with
  | .ok st => st
  | .error _ => store

/-! Retriever (`app/services/retriever.py`). -/

/-- Query intents of `_detect_query_type`. -/
inductive QueryIntent
  | schedule
  | personal
  | general
deriving DecidableEq

/-- Schedule keyword bag (`retriever.py` lines 81-84). -/
def scheduleKeywords : List String :=
  ["schedule", "meeting", "appointment", "calendar", "call", "tomorrow",
   "today", "next week", "remind"]

/-- Personal keyword bag (`retriever.py` lines 89-92). -/
def personalKeywords : List String :=
  ["my name", "who am i", "about me", "my job", "my location",
   "my preference", "what do you know"]

/-- Model of `MemoryRetriever._detect_query_type`. -/
def detect_query_type (query : String) : QueryIntent :=
  let ql := toLowerStr query
  if scheduleKeywords.any (fun kw => strContains ql kw) then .schedule
  else if personalKeywords.any (fun kw => strContains ql kw) then .personal
  else .general

/-- The six scoring weights. -/
structure WeightsM where
  alpha : ℚ
  beta : ℚ
  gamma : ℚ
  delta : ℚ
  epsilon : ℚ
  zeta : ℚ
deriving DecidableEq

/-- Model of `MemoryRetriever._get_adaptive_weights` (`retriever.py` lines 99-139). -/
def get_adaptive_weights : QueryIntent → WeightsM
  | .schedule => ⟨2/5, 1/5, 1/10, 1/10, 1/10, 1/10⟩
  | .personal => ⟨9/20, 1/10, 3/20, 3/20, 1/10, 1/20⟩
  | .general => ⟨9/20, 3/20, 1/10, 1/10, 3/20, 1/20⟩

/-- Modelled from the spec: the profile weight table of section 4.6
(rows general / schedule / personal with columns α β γ δ ε ζ), written for
comparison against `get_adaptive_weights`. -/
def specWeightTable : QueryIntent → WeightsM
  | .general => ⟨9/20, 3/20, 1/10, 1/10, 3/20, 1/20⟩
  | .schedule => ⟨2/5, 1/5, 1/10, 1/10, 1/10, 1/10⟩
  | .personal => ⟨9/20, 1/10, 3/20, 3/20, 1/10, 1/20⟩

/-- Model of `MemoryRetriever._calculate_recency_score` (`retriever.py` lines
316-341): 1.0 at or before turn 0 and for non-positive distances, otherwise
`max(0.993 ** distance, 0.1)`. -/
def calculate_recency_score (sourceTurn currentTurn : ℤ) : ℚ :=
  if currentTurn ≤ 0 then 1
  else
    let d := currentTurn - sourceTurn
    if d ≤ 0 then 1
    else max ((993/1000 : ℚ) ^ d.toNat) (1/10)

/-- Model of `MemoryRetriever._calculate_relevance_score` (`retriever.py` lines
343-422).  `log1p n` stands for the float `math.log(1 + n)`.  The score is
the weighted sum clamped by `min(max(score, 0.0), 1.0)`. -/
def calculate_relevance_score (log1p : ℕ → ℚ)
    (similarity recency confidence : ℚ) (accessCount : ℕ)
    (isConflicted : Bool) (decayPenaltyV : ℚ) (w : WeightsM) : ℚ :=
  let usageBoost := log1p accessCount
  let conflictPenalty : ℚ := if isConflicted then 1 else 0
  min
    (max
      (w.alpha * similarity + w.beta * recency + w.gamma * usageBoost +
        w.delta * confidence - w.epsilon * conflictPenalty -
        w.zeta * decayPenaltyV)
      0)
    1

/-- Memory tiers (`MemoryTier` in `retriever.py`). -/
inductive MemoryTier
  | hot
  | warm
  | cold
deriving DecidableEq

/-- Constant `HOT_THRESHOLD` (turns). -/
def hotThreshold : ℤ := 50

/-- Constant `WARM_THRESHOLD` (turns). -/
def warmThreshold : ℤ := 500

/-- Constant `COLD_SIMILARITY_MIN`. -/
def coldSimilarityMin : ℚ := 3/4

/-- Tier computation of `search` (`retriever.py` lines 222-231):
`Δ = current_turn − source_turn`, HOT when `Δ ≤ 50`, WARM when `Δ ≤ 500`,
COLD otherwise. -/
def memoryTier (currentTurn sourceTurn : ℤ) : MemoryTier :=
  let d := currentTurn - sourceTurn
  if d ≤ hotThreshold then .hot
  else if d ≤ warmThreshold then .warm
  else .cold

/-- The skip test of `search` lines 233-240: a COLD candidate with
similarity strictly below `COLD_SIMILARITY_MIN` is dropped. -/
def coldSkip (tier : MemoryTier) (similarity : ℚ) : Bool :=
  tier == .cold && similarity < coldSimilarityMin

/-- Admission on tier grounds: the negation of `coldSkip`. -/
def tierAdmits (tier : MemoryTier) (similarity : ℚ) : Bool :=
  !coldSkip tier similarity

/-- Decay penalty of `search` line 247-248: `min(1, turn_age / 1000)` where
the age is 0 whenever `current_turn ≤ 0`. -/
def decayPenalty (sourceTurn currentTurn : ℤ) : ℚ :=
  let age : ℚ := if 0 < currentTurn then ((currentTurn - sourceTurn : ℤ) : ℚ)
    else 0
  min 1 (age / 1000)

/-- An ANN match as returned by the Pinecone query: the vector id, the cosine
score, and the filterable metadata written at upsert time. -/
structure PineMatch where
  id : ℕ
  score : ℚ
  mtype : MemoryType
  content : String
  source_turn : ℤ
  confidence : ℚ := 7/10
  importance_score : ℚ := 7/10
  importance_level : String := "medium"
  access_count : ℕ := 0
  is_conflicted : Bool := false
  created_at : ℤ := 0
deriving DecidableEq

/-- Model of `MemorySearchQuery` (`app/models/memory.py` lines 112-120); the pydantic
validators constrain `1 ≤ top_k ≤ 50` and `0 ≤ min_confidence ≤ 1`. -/
structure SearchQueryM where
  user_id : String
  query : String
  memory_types : Option (List MemoryType) := none
  top_k : ℕ := 10
  min_confidence : ℚ := 1/2
  current_turn : ℤ := 0
deriving DecidableEq

/-- The pydantic bound on `top_k`: `Field(default=10, ge=1, le=50)`.
A query with `top_k = 0` is rejected at validation time. -/
def validTopK (k : ℕ) : Bool := 1 ≤ k && k ≤ 50

/-- Metadata of a `Memory` object (`MemoryMetadata` in
`app/models/memory.py`). -/
structure MemoryMetadataM where
  source_turn : ℤ
  created_at : ℤ
  last_accessed : ℤ
  access_count : ℕ
  confidence : ℚ
  decay_score : ℚ
  importance_score : ℚ
  importance_level : String
deriving DecidableEq

/-- A `Memory` object as rebuilt by the retriever from ANN metadata. -/
structure MemoryM where
  memory_id : ℕ
  user_id : String
  type : MemoryType
  content : String
  embedding : Option (List ℚ)
  metadata : MemoryMetadataM
deriving DecidableEq

/-- Model of `MemorySearchResult`. -/
structure SearchResultM where
  memory : MemoryM
  relevance_score : ℚ
  similarity_score : ℚ
  recency_score : ℚ
  access_score : ℚ
deriving DecidableEq

/-- Per-candidate processing of `MemoryRetriever.search` (`retriever.py`
lines 187-298): type filter, confidence floor, tier computation with the
COLD-similarity skip, then scoring and reconstruction of the result.  The
rebuilt metadata hard-codes `access_count = 0` and `last_accessed =
created_at`, and line 251 sets the legacy `access_score` to the candidate's
confidence. -/
def effectiveTurn (q : SearchQueryM) : ℤ :=
  if 0 < q.current_turn then q.current_turn else 0

/-- The result record built at `retriever.py` lines 266-297 for an admitted
candidate: the memory is reconstructed from ANN metadata with hard-coded
`access_count = 0` and `last_accessed = created_at`, `decay_score` is set to
the recency score, and the legacy `access_score` (line 251) is the
candidate's confidence. -/
def buildResult (log1p : ℕ → ℚ) (q : SearchQueryM) (m : PineMatch) :
    SearchResultM :=
  { memory :=
      { memory_id := m.id
        user_id := q.user_id
        type := m.mtype
        content := m.content
        embedding := none
        metadata :=
          { source_turn := m.source_turn
            created_at := m.created_at
            last_accessed := m.created_at
            access_count := 0
            confidence := m.confidence
            decay_score := calculate_recency_score m.source_turn q.current_turn
            importance_score := m.importance_score
            importance_level := m.importance_level } }
    relevance_score :=
      calculate_relevance_score log1p m.score
        (calculate_recency_score m.source_turn q.current_turn) m.confidence
        m.access_count m.is_conflicted
        (decayPenalty m.source_turn (effectiveTurn q))
        (get_adaptive_weights (detect_query_type q.query))
    similarity_score := m.score
    recency_score := calculate_recency_score m.source_turn q.current_turn
    access_score := m.confidence }

def processMatch (log1p : ℕ → ℚ) (q : SearchQueryM) (m : PineMatch) :
    Option SearchResultM :=
  if (match q.memory_types with
      | some ts => !ts.contains m.mtype
      | none => false) then none
  else if m.confidence < q.min_confidence then none
  else if coldSkip (memoryTier (effectiveTurn q) m.source_turn) m.score then
    none
  else
    some (buildResult log1p q m)

/-- Tail of `search`: sort by relevance descending (stable) and truncate to
`top_k`. -/
def searchResults (log1p : ℕ → ℚ) (q : SearchQueryM)
    (ms : List PineMatch) : List SearchResultM :=
  (((ms.filterMap (processMatch log1p q)).mergeSort
      (fun a b => b.relevance_score ≤ a.relevance_score)).take q.top_k)

/-- Instrumented view of one `search` call (`retriever.py` lines 162-314):
on the non-exception path the embedder is invoked first (line 171), then the
ANN index with `top_k = min(query.top_k * 3, 50)` (lines 174-181); there is
no early return for any value of `top_k`. -/
structure SearchTraceM where
  results : List SearchResultM
  embedderCalled : Bool
  annCalled : Bool
  annTopK : ℕ
deriving DecidableEq

/-- The trace of a `search` call on the non-exception path. -/
def searchTrace (log1p : ℕ → ℚ) (q : SearchQueryM)
    (ms : List PineMatch) : SearchTraceM :=
  { results := searchResults log1p q ms
    embedderCalled := true
    annCalled := true
    annTopK := min (q.top_k * 3) 50 }

/-! Turn orchestrator: silence mode and the response's active memories
(`process_conversation` in `app/api/routes.py`). -/

/-- Comprehensive-query keyword bag (`routes.py` lines 483-486). -/
def comprehensiveKeywords : List String :=
  ["each and every", "everything", "all details", "comprehensive",
   "full details", "complete information", "tell me everything"]

/-- Knowledge-query keyword bag (`routes.py` lines 489-492). -/
def knowledgeKeywords : List String :=
  ["summarize", "summarise", "summary", "tell me about", "what is",
   "explain", "describe", "book"]

/-- Flag `is_comprehensive` of `process_conversation`. -/
def isComprehensive (message : String) : Bool :=
  comprehensiveKeywords.any (fun p => strContains (toLowerStr message) p)

/-- Flag `is_knowledge_query` of `process_conversation`. -/
def isKnowledgeQuery (message : String) : Bool :=
  knowledgeKeywords.any (fun p => strContains (toLowerStr message) p)

/-- Computation `max([r.relevance_score for r in search_results], default=0.0)`
(`routes.py` line 515). -/
def maxRelevance (rs : List SearchResultM) : ℚ :=
  match rs.map (fun r => r.relevance_score) with
  | [] => 0
  | x :: xs => xs.foldl max x

/-- The silence-mode test (`routes.py` lines 517-521). -/
def silenceMode (message : String) (rs : List SearchResultM) : Bool :=
  decide (maxRelevance rs < 3/10) && !isComprehensive message &&
    !isKnowledgeQuery message

/-- Lines 523-527: in silence mode the memory context becomes the empty
string and the retrieved set is cleared. -/
def applySilence (message : String) (memoryContext : String)
    (rs : List SearchResultM) : String × List SearchResultM :=
  if silenceMode message rs then ("", []) else (memoryContext, rs)

/-- Model of `ActiveMemory` (`app/models/conversation.py`). -/
structure ActiveMemoryM where
  memory_id : ℕ
  content : String
  type : MemoryType
  origin_turn : ℤ
  last_used_turn : ℤ
  confidence : ℚ
  relevance_score : ℚ
deriving DecidableEq

/-- The `active_memories` construction (`routes.py` lines 644-659): top 10 of
the (possibly cleared) search results. -/
def activeMemoriesOf (turn : ℤ) (rs : List SearchResultM) :
    List ActiveMemoryM :=
  (rs.take 10).map (fun r =>
    { memory_id := r.memory.memory_id
      content := r.memory.content
      type := r.memory.type
      origin_turn := r.memory.metadata.source_turn
      last_used_turn := turn
      confidence := r.memory.metadata.confidence
      relevance_score := r.relevance_score })

/-- Lines 513-527 plus 643-659 of `process_conversation` combined: the
long-term-memory context injected into the system prompt and the
`active_memories` field of the response. -/
def orchestrateInjection (message : String) (turn : ℤ)
    (memoryContext : String) (rs : List SearchResultM) :
    String × List ActiveMemoryM :=
  let pair := applySilence message memoryContext rs
  (pair.1, activeMemoriesOf turn pair.2)

/-! Concrete fixtures for evaluation theorems. -/

/-- The log model returning 0 everywhere (its value is irrelevant when
`access_count = 0`, since `math.log 1 = 0`). -/
def log1pZero : ℕ → ℚ := fun _ => 0

/-- A query with no schedule/personal keywords at turn 0. -/
def qW : SearchQueryM :=
  { user_id := "u", query := "zzz", top_k := 10, min_confidence := 1/2,
    current_turn := 0 }

/-- A maximally-similar candidate for `qW`. -/
def mW : PineMatch :=
  { id := 1, score := 1, mtype := .fact, content := "c", source_turn := 0,
    confidence := 1, access_count := 0, is_conflicted := false,
    created_at := 5 }

/-- The result `search` builds from `mW` under `qW`. -/
def rW : SearchResultM := buildResult log1pZero qW mW

/-- A query at turn 600 (COLD territory for source turn 0). -/
def qCold : SearchQueryM :=
  { user_id := "u", query := "zzz", top_k := 10, min_confidence := 1/2,
    current_turn := 600 }

/-- A COLD candidate whose similarity is exactly the 0.75 threshold. -/
def mCold : PineMatch :=
  { id := 2, score := 3/4, mtype := .fact, content := "c", source_turn := 0,
    confidence := 1, access_count := 0, is_conflicted := false,
    created_at := 5 }

/-- A search query with `top_k = 0`, expressible only because the model does
not enforce the pydantic validator `ge=1`. -/
def qZero : SearchQueryM :=
  { user_id := "u", query := "anything", top_k := 0, min_confidence := 1/2,
    current_turn := 0 }

/-- The canonical preference row of end-to-end scenario B, created at turn
10 with a version marker in its context. -/
def prefRow : MemRow :=
  { memory_id := 3
    user_id := "u"
    type := .preference
    content := "Prefers morning calls"
    source_turn := 10
    created_at := 10
    confidence := 8/10
    context := [("version", "1")] }

/-- Scenario B, turn 300: the superseding preference statement. -/
def prefUpdateContent : String := "Actually, prefer calls after 11 AM."

/-- The older preference matching pattern "call" of key `call_time`. -/
def rowCallOld : MemRow :=
  { memory_id := 4
    user_id := "u"
    type := .preference
    content := "prefers a morning call"
    created_at := 10 }

/-- A newer preference matching only pattern "phone" of key `call_time`. -/
def rowPhoneNew : MemRow :=
  { memory_id := 5
    user_id := "u"
    type := .preference
    content := "prefers the phone"
    created_at := 20 }

/-- A similarity oracle returning 1 everywhere (identical embeddings). -/
def simConst : List ℚ → List ℚ → ℚ := fun _ _ => 1

/-- A stored row with an embedding, for dedup evaluation. -/
def embRow : MemRow :=
  { memory_id := 11
    user_id := "u"
    type := .fact
    content := "likes tea"
    embedding := some [1]
    created_at := 50 }

/-- The scenario-B candidate as produced by the extractor at turn 300. -/
def candB : MemoryCreateM :=
  { user_id := "u"
    type := .preference
    content := prefUpdateContent
    source_turn := 300
    confidence := 9/10 }

/-!  Theorems. -/

/-- C1 (code bug): `create_memory` never computes a content hash — both
inserts of the identical text "User lives in Bangalore." for user "u" carry
`content_hash = NULL`, the unique index `(user_id, content_hash)` therefore
never fires (PostgreSQL treats NULLs as distinct), no `DuplicateMemory` error
is raised, and after the second create TWO rows with the same user and
content are stored.  This contradicts the migration's stated purpose
("prevent duplicate memories") and the claimed behaviour that the second
create fails leaving exactly one row. -/
theorem c1_duplicate_create_stores_two_rows :
    create_memory embedConst 1 100 [] dupCreate = .ok [dupRow1] ∧
    create_memory embedConst 2 101 [dupRow1] dupCreate = .ok [dupRow1, dupRow2] ∧
    dupRow1.user_id = dupRow2.user_id ∧
    dupRow1.content = dupRow2.content ∧
    dupRow1.content_hash = none ∧
    dupRow2.content_hash = none :=
  ⟨rfl, rfl, rfl, rfl, rfl, rfl⟩

/-- C4 (counterexample): an `entity` memory with `importance_level =
"critical"` created at day 0 is deleted by `expire_old_memories` run at day
181 — TTL expiry does not leave critical memories stored. -/
theorem c4_counterexample_critical_entity_expired :
    critRow.importance_level = "critical" ∧
    critRow.type = .entity ∧
    expire_old_memories 181 none [critRow] = ([], 1) :=
  ⟨rfl, rfl, rfl⟩

/-- C4 (amended): TTL expiry and old-memory cleanup ignore
`importance_level` entirely — their selection predicates are invariant under
any change of the importance level, so critical importance gives no
protection there; only `MemoryWeightCalculator.calculate_current_weight`
exempts critical memories, returning the initial weight untouched. -/
theorem c4_amended_importance_ignored_by_expiry (now maxAge : ℤ)
    (minDecay confT : ℚ) (uf : Option String) (r : MemRow) (lvl : String)
    (expF : ℚ → ℚ) (w : ℚ) (daysOld : ℤ) (ac : ℕ) (dsa : Option ℤ) :
    expireSelects now uf (withImportance r lvl) = expireSelects now uf r ∧
    cleanupShouldDelete now maxAge minDecay confT (withImportance r lvl) =
      cleanupShouldDelete now maxAge minDecay confT r ∧
    calculate_current_weight expF w .critical daysOld ac dsa = w :=
  ⟨rfl, rfl, rfl⟩

/-- C9 (counterexample): modelling a hypothetical `search` call with
`top_k = 0` (which pydantic validation would reject, `ge=1`), the embedder
and the ANN index are still invoked — `search` has no `top_k = 0`
short-circuit, contradicting the claim that they are not called. -/
theorem c9_counterexample_embedder_called_at_topk_zero :
    validTopK 0 = false ∧
    (searchTrace log1pZero qZero []).embedderCalled = true ∧
    (searchTrace log1pZero qZero []).annCalled = true ∧
    (searchTrace log1pZero qZero []).results = [] :=
  ⟨rfl, rfl, rfl, rfl⟩

/-- C9 (amended): `MemorySearchQuery` validation rejects `top_k = 0`
(`Field(ge=1, le=50)`), so `search` is never invoked with it; on its
non-exception path `search` unconditionally calls the embedder and then the
ANN index with `min(top_k * 3, 50)` candidates, and returns at most `top_k`
results. -/
theorem c9_amended_topk_validated_no_shortcircuit (log1p : ℕ → ℚ)
    (q : SearchQueryM) (ms : List PineMatch) :
    validTopK 0 = false ∧
    (searchTrace log1p q ms).embedderCalled = true ∧
    (searchTrace log1p q ms).annCalled = true ∧
    (searchTrace log1p q ms).annTopK = min (q.top_k * 3) 50 ∧
    (searchTrace log1p q ms).results.length ≤ q.top_k :=
  ⟨rfl, rfl, rfl, rfl, List.length_take_le _ _⟩

/-- C5 (confirmed): for every candidate the retriever scores
(`buildResult` is applied exactly to the admitted candidates), the relevance
score equals the clamp to [0,1] of
α·S + β·R + γ·log(1+access_count) + δ·C − ε·K − ζ·D, where the weight
profile selected from the classified intent coincides with the table of the
specification, and consequently the score lies in [0,1]. -/
theorem c5_relevance_score_formula (log1p : ℕ → ℚ) (q : SearchQueryM)
    (m : PineMatch) :
    get_adaptive_weights (detect_query_type q.query) =
      specWeightTable (detect_query_type q.query) ∧
    (buildResult log1p q m).relevance_score =
      min (max ((specWeightTable (detect_query_type q.query)).alpha * m.score +
        (specWeightTable (detect_query_type q.query)).beta *
          calculate_recency_score m.source_turn q.current_turn +
        (specWeightTable (detect_query_type q.query)).gamma *
          log1p m.access_count +
        (specWeightTable (detect_query_type q.query)).delta * m.confidence -
        (specWeightTable (detect_query_type q.query)).epsilon *
          (if m.is_conflicted then 1 else 0) -
        (specWeightTable (detect_query_type q.query)).zeta *
          decayPenalty m.source_turn (effectiveTurn q)) 0) 1 ∧
    0 ≤ (buildResult log1p q m).relevance_score ∧
    (buildResult log1p q m).relevance_score ≤ 1 := by
  have hw : get_adaptive_weights (detect_query_type q.query) =
      specWeightTable (detect_query_type q.query) := by
    cases h : detect_query_type q.query <;> rfl
  refine ⟨hw, ?_, ?_, ?_⟩
  · show calculate_relevance_score log1p m.score
      (calculate_recency_score m.source_turn q.current_turn) m.confidence
      m.access_count m.is_conflicted
      (decayPenalty m.source_turn (effectiveTurn q))
      (get_adaptive_weights (detect_query_type q.query)) = _
    rw [hw]
    rfl
  · exact le_min (le_max_right _ _) zero_le_one
  · exact min_le_right _ _

/-- C7 (counterexample): a candidate at turn distance 600 is COLD, and at
similarity exactly 0.75 it is admitted (the code skips only when
`similarity < 0.75`), although 0.75 does not EXCEED the cold threshold — so
admission does not require strictly exceeding 0.75. -/
theorem c7_counterexample_cold_admitted_at_threshold :
    memoryTier 600 0 = .cold ∧
    tierAdmits (memoryTier 600 0) (3/4) = true ∧
    ¬ ((3/4 : ℚ) > coldSimilarityMin) ∧
    processMatch log1pZero qCold mCold = some (buildResult log1pZero qCold mCold) := by
  have htier : memoryTier 600 0 = .cold := rfl
  have hskip : coldSkip (memoryTier (effectiveTurn qCold) mCold.source_turn)
      mCold.score = false := by
    have ht : memoryTier (effectiveTurn qCold) mCold.source_turn = .cold := rfl
    simp [coldSkip, ht, mCold, coldSimilarityMin]
  refine ⟨htier, ?_, ?_, ?_⟩
  · simp [tierAdmits, coldSkip, htier, coldSimilarityMin]
  · norm_num [coldSimilarityMin]
  · have hconf : ¬ (mCold.confidence < qCold.min_confidence) := by
      norm_num [mCold, qCold]
    show (if mCold.confidence < qCold.min_confidence then none
      else if coldSkip (memoryTier (effectiveTurn qCold) mCold.source_turn)
          mCold.score = true then none
      else some (buildResult log1pZero qCold mCold)) =
        some (buildResult log1pZero qCold mCold)
    rw [if_neg hconf, if_neg (by simp [hskip])]

/-- C7 (amended): with Δ = current − source, the tier is HOT when Δ ≤ 50,
WARM when 50 < Δ ≤ 500, COLD when 500 < Δ; a COLD candidate is admitted to
scoring if and only if its similarity is AT LEAST the cold threshold 0.75
(admission holds at equality), and HOT or WARM candidates are never rejected
on tier grounds. -/
theorem c7_amended_tiering_and_cold_admission (current source : ℤ) (sim : ℚ) :
    (current - source ≤ 50 → memoryTier current source = .hot) ∧
    (50 < current - source → current - source ≤ 500 →
      memoryTier current source = .warm) ∧
    (500 < current - source → memoryTier current source = .cold) ∧
    (tierAdmits .cold sim = true ↔ coldSimilarityMin ≤ sim) ∧
    tierAdmits .hot sim = true ∧
    tierAdmits .warm sim = true := by
  refine ⟨?_, ?_, ?_, ?_, rfl, rfl⟩
  · intro h
    simp only [memoryTier, hotThreshold]
    rw [if_pos h]
  · intro h1 h2
    simp only [memoryTier, hotThreshold, warmThreshold]
    rw [if_neg (by omega), if_pos h2]
  · intro h
    simp only [memoryTier, hotThreshold, warmThreshold]
    rw [if_neg (by omega), if_neg (by omega)]
  · simp [tierAdmits, coldSkip, not_lt]

/-- Witness for the amended C7 statement at concrete inputs: turn distance
600 is COLD, 30 is HOT, 300 is WARM, and the COLD admission criterion is the
`≥ 0.75` comparison. -/
theorem c7_witness :
    memoryTier 600 0 = .cold ∧
    memoryTier 30 0 = .hot ∧
    memoryTier 300 0 = .warm ∧
    (tierAdmits .cold (4/5) = true ↔ coldSimilarityMin ≤ (4/5 : ℚ)) ∧
    tierAdmits .hot (0 : ℚ) = true :=
  ⟨(c7_amended_tiering_and_cold_admission 600 0 (4/5)).2.2.1 (by decide),
   (c7_amended_tiering_and_cold_admission 30 0 0).1 (by decide),
   (c7_amended_tiering_and_cold_admission 300 0 0).2.1 (by decide) (by decide),
   (c7_amended_tiering_and_cold_admission 600 0 (4/5)).2.2.2.1,
   (c7_amended_tiering_and_cold_admission 600 0 0).2.2.2.2.1⟩

/-- C3 (confirmed): whenever the maximum relevance over the retrieved set is
below 0.30 and the message is classified neither comprehensive nor
knowledge-seeking, silence mode fires: the long-term memory context injected
into the system prompt is the empty string and the response's
`active_memories` list is empty. -/
theorem c3_silence_mode_suppresses_memories (message : String) (turn : ℤ)
    (memoryContext : String) (rs : List SearchResultM)
    (hscore : maxRelevance rs < 3/10)
    (hcomp : isComprehensive message = false)
    (hknow : isKnowledgeQuery message = false) :
    orchestrateInjection message turn memoryContext rs = ("", []) := by
  have hs : silenceMode message rs = true := by
    simp [silenceMode, hcomp, hknow, hscore]
  simp [orchestrateInjection, applySilence, hs, activeMemoriesOf]

/-- Witness for C3: an empty retrieved set (top score 0) together with a
message hitting no comprehensive/knowledge keyword yields no injected memory
context and an empty `active_memories`. -/
theorem c3_witness :
    orchestrateInjection "hello there friend" 7 "## RELEVANT MEMORIES" [] =
      ("", []) :=
  c3_silence_mode_suppresses_memories "hello there friend" 7
    "## RELEVANT MEMORIES" [] (by norm_num [maxRelevance]) (by decide)
    (by decide)

/-- C2 (code bug): scenario B of the spec evaluated on the code.  The
candidate "Actually, prefer calls after 11 AM." at turn 300 is detected as
canonical key `call_time`, but the canonicalizer then raises: its
`select(Memory)` is built over the unmapped pydantic `Memory` class (the
repository has no SQLAlchemy-mapped model), so statement construction fails
on the first pattern.  The exception propagates to the extraction task's
single outer handler (`routes.py` line 308) and the task aborts: the stored
preference keeps its old content, confidence, `source_turn = 10` and its
untouched `context` (version still "1") — no in-place update, no version
bump, and the skip-the-insert flow never happens.  This contradicts both
the claim and the canonicalizer's own docstrings ("updated in place",
"Maintains version tracking", "Returns: Tuple of (is_canonical_update,
existing_memory_id)"). -/
theorem c2_canonicalizer_crash_aborts_update :
    detect_canonical_key prefUpdateContent = some "call_time" ∧
    find_canonical_memory "u" "call_time" .preference =
      .error .unmappedModel ∧
    resolve_preference [prefRow] "u" prefUpdateContent .preference (9/10)
      300 999 = .error .unmappedModel ∧
    extraction_store_step simConst embedConst false 9 999 [prefRow] "u" 300
      candB = .error .unmappedModel ∧
    run_extraction_step simConst embedConst false 9 999 [prefRow] "u" 300
      candB = [prefRow] ∧
    prefRow.content = "Prefers morning calls" ∧
    prefRow.source_turn = 10 ∧
    prefRow.context = [("version", "1")] :=
  ⟨rfl, rfl, rfl, rfl, rfl, rfl, rfl, rfl⟩

/-- C8 (code bug): two stored preferences of user "u" both match key
`call_time` (the older via pattern "call", the newer via pattern "phone"),
yet the canonicalizer selects nothing at all — `_find_canonical_memory`
raises at `select(Memory)` construction on its first pattern iteration
(unmapped pydantic class), contradicting its own docstring ("Returns:
Existing memory or None").  The most-recently-created tie-break of the
claim never executes; nothing is ever chosen for update. -/
theorem c8_canonicalizer_crash_no_selection :
    rowCallOld.user_id = "u" ∧
    rowPhoneNew.user_id = "u" ∧
    rowCallOld.type = .preference ∧
    rowPhoneNew.type = .preference ∧
    contentMatchesKey "call_time" rowCallOld = true ∧
    contentMatchesKey "call_time" rowPhoneNew = true ∧
    rowCallOld.created_at < rowPhoneNew.created_at ∧
    find_canonical_memory "u" "call_time" .preference =
      .error .unmappedModel ∧
    resolve_preference [rowCallOld, rowPhoneNew] "u"
      "schedule my calls in the afternoon" .preference (9/10) 40 1000 =
      .error .unmappedModel :=
  ⟨rfl, rfl, rfl, rfl, rfl, rfl, by decide, rfl, rfl⟩

/-- C6 (confirmed): `_check_duplicate_content` fetches at most the 50 most
recent memories of the user (every non-fetched row of the user is no newer
than any fetched one), reports a duplicate — so the extraction loop skips
the create — exactly when some fetched memory has a (non-empty) embedding
whose similarity with the candidate's embedding is at least the 0.95
threshold, and returns False (create allowed, fail-open) whenever the check
itself errors. -/
theorem c6_dedup_fetch_and_threshold (sim : List ℚ → List ℚ → ℚ)
    (store : List MemRow) (user : String) (e : List ℚ) :
    (check_duplicate_content sim store user e (95/100) false = true ↔
      ∃ m ∈ get_user_memories store user 50, ∃ emb,
        m.embedding = some emb ∧ emb ≠ [] ∧ (95/100 : ℚ) ≤ sim e emb) ∧
    check_duplicate_content sim store user e (95/100) true = false ∧
    (get_user_memories store user 50).length ≤ 50 ∧
    (∀ m ∈ get_user_memories store user 50, m ∈ store ∧ m.user_id = user) ∧
    (∀ m ∈ get_user_memories store user 50, ∀ m2 ∈ store, m2.user_id = user →
      m2 ∉ get_user_memories store user 50 →
        m2.created_at ≤ m.created_at) := by
  have htrans : ∀ a b c : MemRow, byCreatedDesc a b → byCreatedDesc b c →
      byCreatedDesc a c := by
    intro a b c hab hbc
    simp only [byCreatedDesc, decide_eq_true_eq] at *
    omega
  have htotal : ∀ a b : MemRow, byCreatedDesc a b || byCreatedDesc b a := by
    intro a b
    simp only [byCreatedDesc, Bool.or_eq_true, decide_eq_true_eq]
    omega
  refine ⟨?_, rfl, List.length_take_le _ _, ?_, ?_⟩
  · show ((get_user_memories store user 50).any fun m =>
      match m.embedding with
      | none => false
      | some emb => !emb.isEmpty && decide ((95/100 : ℚ) ≤ sim e emb)) =
        true ↔ _
    rw [List.any_eq_true]
    constructor
    · rintro ⟨m, hm, hp⟩
      refine ⟨m, hm, ?_⟩
      cases hemb : m.embedding with
      | none => rw [hemb] at hp; simp at hp
      | some emb =>
        rw [hemb] at hp
        simp only [Bool.and_eq_true] at hp
        exact ⟨emb, rfl, by simpa using hp.1, of_decide_eq_true hp.2⟩
    · rintro ⟨m, hm, emb, hemb, hne, hle⟩
      refine ⟨m, hm, ?_⟩
      rw [hemb]
      simp only [Bool.and_eq_true]
      exact ⟨by simpa using hne, decide_eq_true hle⟩
  · intro m hm
    have h1 : m ∈ (store.filter
        (fun r => r.user_id == user)).mergeSort byCreatedDesc :=
      List.mem_of_mem_take hm
    have h2 : m ∈ store.filter (fun r => r.user_id == user) :=
      List.mem_mergeSort.mp h1
    exact ⟨List.mem_of_mem_filter h2, by simpa using List.of_mem_filter h2⟩
  · intro m hm m2 hm2 huser hnot
    have hp : ((store.filter
        (fun r => r.user_id == user)).mergeSort byCreatedDesc).Pairwise
        (fun a b => byCreatedDesc a b) :=
      List.sorted_mergeSort htrans htotal _
    have hm2s : m2 ∈ (store.filter
        (fun r => r.user_id == user)).mergeSort byCreatedDesc :=
      List.mem_mergeSort.mpr (List.mem_filter.mpr ⟨hm2, by simpa using huser⟩)
    rw [← List.take_append_drop 50 ((store.filter
      (fun r => r.user_id == user)).mergeSort byCreatedDesc)] at hp hm2s
    have hm2drop : m2 ∈ ((store.filter
        (fun r => r.user_id == user)).mergeSort byCreatedDesc).drop 50 := by
      rcases List.mem_append.mp hm2s with h | h
      · exact absurd h hnot
      · exact h
    have := (List.pairwise_append.mp hp).2.2 m hm m2 hm2drop
    simpa [byCreatedDesc] using this

/-- Witness for C6 at a concrete store: a single stored row with an
embedding; the fail-open branch returns False, and with a similarity oracle
returning 1 the duplicate is reported. -/
theorem c6_witness :
    check_duplicate_content simConst [embRow] "u" [1] (95/100) true = false ∧
    (check_duplicate_content simConst [embRow] "u" [1] (95/100) false =
        true ↔
      ∃ m ∈ get_user_memories [embRow] "u" 50, ∃ emb,
        m.embedding = some emb ∧ emb ≠ [] ∧
          (95/100 : ℚ) ≤ simConst [1] emb) ∧
    check_duplicate_content simConst [embRow] "u" [1] (95/100) false =
      true := by
  have h := c6_dedup_fetch_and_threshold simConst [embRow] "u" [1]
  refine ⟨h.2.1, h.1, ?_⟩
  refine h.1.mpr ⟨embRow, ?_, [1], rfl, by simp, by norm_num [simConst]⟩
  unfold get_user_memories
  rw [show ([embRow].filter (fun r => r.user_id == "u")) = [embRow] from rfl,
    List.mergeSort_singleton]
  exact List.mem_singleton.mpr rfl

/-- Inversion of the per-candidate step: an admitted candidate produces
exactly the record `buildResult`. -/
theorem processMatch_eq_some (log1p : ℕ → ℚ) (q : SearchQueryM)
    (m : PineMatch) (r : SearchResultM)
    (h : processMatch log1p q m = some r) : r = buildResult log1p q m := by
  unfold processMatch at h
  split at h
  · exact absurd h (by simp)
  · split at h
    · exact absurd h (by simp)
    · split at h
      · exact absurd h (by simp)
      · exact (Option.some.inj h).symm

/-- C10 (confirmed): every result returned by `search` reports
`access_score` equal to the candidate's confidence (not any usage-frequency
measure), and its reconstructed memory metadata always carries
`access_count = 0` and `last_accessed = created_at`, regardless of the
values stored in the row store. -/
theorem c10_search_results_metadata (log1p : ℕ → ℚ) (q : SearchQueryM)
    (ms : List PineMatch) (r : SearchResultM)
    (hr : r ∈ searchResults log1p q ms) :
    r.memory.metadata.access_count = 0 ∧
    r.memory.metadata.last_accessed = r.memory.metadata.created_at ∧
    ∃ m ∈ ms, processMatch log1p q m = some r ∧
      r.access_score = m.confidence := by
  have h1 : r ∈ (ms.filterMap (processMatch log1p q)).mergeSort
      (fun a b => b.relevance_score ≤ a.relevance_score) :=
    List.mem_of_mem_take hr
  have h2 : r ∈ ms.filterMap (processMatch log1p q) := List.mem_mergeSort.mp h1
  obtain ⟨m, hm, hpm⟩ := List.mem_filterMap.mp h2
  have hb := processMatch_eq_some log1p q m r hpm
  subst hb
  exact ⟨rfl, rfl, ⟨m, hm, hpm, rfl⟩⟩

/-- Witness for C10: a concrete search over one candidate; the returned
result carries `access_count = 0`, `last_accessed = created_at` and
`access_score` equal to the candidate's confidence. -/
theorem c10_witness :
    rW ∈ searchResults log1pZero qW [mW] ∧
    rW.memory.metadata.access_count = 0 ∧
    rW.memory.metadata.last_accessed = rW.memory.metadata.created_at ∧
    rW.access_score = mW.confidence := by
  have hconf : ¬ (mW.confidence < qW.min_confidence) := by norm_num [mW, qW]
  have hskip : coldSkip (memoryTier (effectiveTurn qW) mW.source_turn)
      mW.score = false := rfl
  have hpm : processMatch log1pZero qW mW = some rW := by
    show (if mW.confidence < qW.min_confidence then none
      else if coldSkip (memoryTier (effectiveTurn qW) mW.source_turn)
          mW.score = true then none
      else some (buildResult log1pZero qW mW)) = some rW
    rw [if_neg hconf, if_neg (by simp [hskip])]
    rfl
  have hsr : searchResults log1pZero qW [mW] = [rW] := by
    unfold searchResults
    rw [show ([mW].filterMap (processMatch log1pZero qW)) = [rW] by
      simp [hpm], List.mergeSort_singleton]
    rfl
  have hmem : rW ∈ searchResults log1pZero qW [mW] := by
    rw [hsr]
    exact List.mem_singleton.mpr rfl
  have h := c10_search_results_metadata log1pZero qW [mW] rW hmem
  exact ⟨hmem, h.1, h.2.1, rfl⟩

end Memorai
